import Mathlib

/-!
Verification of the repository service of `go-coveralls-api`
(package `coveralls`): the error-classification logic of the three
operations `Get`, `Add`, `Update`, the JSON wire format of the
`Repository` and `RepositoryConfig` records, and the `{"repo": ...}`
request envelope.

The source carries two implementations of the repository service; we
embed the refined one (structured error types, finer 422
classification), which the specification designates as the target
contract.
-/

namespace Coveralls

/-- A JSON value, as produced/consumed by Go's `encoding/json`.
Numbers are modelled as rationals (no numeric computation occurs in the
verified code, only presence and equality of values). -/
inductive Json where
  | null : Json
  | bool (b : Bool) : Json
  | num (q : Rat) : Json
  | str (s : String) : Json
  | arr (xs : List Json) : Json
  | obj (fields : List (String × Json)) : Json

/-- Look up a key in a JSON object; `none` when the value is not an
object or the key is missing. -/
def Json.getKey (j : Json) (k : String) : Option Json :=
  match j with
  | .obj fields => fields.lookup k
  | _ => none

/-- The keys of a JSON object (empty for non-objects). -/
def Json.keys (j : Json) : List String :=
  match j with
  | .obj fields => fields.map (·.1)
  | _ => []

/-- Whether a JSON object has a given key. -/
def Json.hasKey (j : Json) (k : String) : Bool :=
  (j.getKey k).isSome

/-- Whether `pat` occurs as a contiguous sublist of the second list.
Model of substring search on the character level. -/
def containsSub (pat : List Char) : List Char → Bool
  | [] => pat.isEmpty
  | c :: cs => pat.isPrefixOf (c :: cs) || containsSub pat cs

/-- Model of Go `strings.Contains s substr`: reports whether `substr`
is within `s`. -/
def stringsContains (s substr : String) : Bool :=
  containsSub substr.data s.data

/-- The error values the repository service can return, one constructor
per error type/sentinel of the source:
`ErrRepoNotFound`, `ErrNameIsTaken`, `ErrUnprocessableEntity{ErrorBody}`,
`ErrUnexpectedStatusCode{StatusCode, ErrorBody}`, plus transport-level
errors propagated unwrapped from the HTTP client. -/
inductive GoError where
  | repoNotFound : GoError
  | nameIsTaken : GoError
  | unprocessableEntity (ErrorBody : String) : GoError
  | unexpectedStatusCode (StatusCode : Nat) (ErrorBody : String) : GoError
  | transport (msg : String) : GoError
deriving DecidableEq, Repr

/-- Error `ErrRepoNotFound`: returned when we receive a 404 Not Found status code. -/
def ErrRepoNotFound : GoError := .repoNotFound

/-- Error `ErrNameIsTaken`: returned when the API responds to a POST saying the
repo name has already been taken. -/
def ErrNameIsTaken : GoError := .nameIsTaken

/-- Constructor `newErrUnprocessableEntity`: 422 with no more specific condition
identified; carries the full response body. -/
def newErrUnprocessableEntity (errorBody : String) : GoError :=
  .unprocessableEntity errorBody

/-- Constructor `newErrUnexpectedStatusCode`: carries the unexpected status code and
the response body. -/
def newErrUnexpectedStatusCode (c : Nat) (b : String) : GoError :=
  .unexpectedStatusCode c b

/-- An HTTP response as seen by the service methods: the status code,
the raw body bytes (as text), and the decoded result object (`resty`
decodes the body into the `SetResult` target on success). -/
structure Response (α : Type) where
  statusCode : Nat
  body : String
  result : α
deriving DecidableEq, Repr

/-- Record `Repository` (read model): one record per repository known to the
service, mirroring the Go struct field for field. Pointer fields are
options; plain fields carry Go zero values when absent. -/
structure Repository where
  ID : Int
  Name : String
  Service : String
  CommentOnPullRequests : Option Bool
  SendBuildStatus : Option Bool
  CommitStatusFailThreshold : Option Rat
  CommitStatusFailChangeThreshold : Option Rat
  HasBadge : Bool
  Token : String
  CreatedAt : String
  UpdatedAt : String
deriving DecidableEq, Repr

/-- Record `RepositoryConfig` (write model): config settings for one repository,
mirroring the Go struct field for field. -/
structure RepositoryConfig where
  Service : String
  Name : String
  CommentOnPullRequests : Option Bool
  SendBuildStatus : Option Bool
  CommitStatusFailThreshold : Option Rat
  CommitStatusFailChangeThreshold : Option Rat
deriving DecidableEq, Repr

/-- Method `Get`: classification of the HTTP response by
`RepositoryServiceImpl.Get`. Returns the Go pair
`(*Repository, error)` as two options.
200 → decoded result, 404 → `ErrRepoNotFound`,
anything else → `ErrUnexpectedStatusCode` with status and body. -/
def Get (resp : Response Repository) : Option Repository × Option GoError :=
  if resp.statusCode = 200 then
    (some resp.result, none)
  else if resp.statusCode = 404 then
    (none, some ErrRepoNotFound)
  else
    (none, some (newErrUnexpectedStatusCode resp.statusCode resp.body))

/-- Method `Add`: classification of the HTTP response by
`RepositoryServiceImpl.Add`. 201 → decoded result; 422 → `ErrNameIsTaken`
when the body contains `"has already been taken"`, otherwise
`ErrUnprocessableEntity` with the body; anything else →
`ErrUnexpectedStatusCode`. -/
def Add (resp : Response RepositoryConfig) : Option RepositoryConfig × Option GoError :=
  if resp.statusCode = 201 then
    (some resp.result, none)
  else if resp.statusCode = 422 then
    let errorBody := resp.body
    if stringsContains errorBody "has already been taken" then
      (none, some ErrNameIsTaken)
    else
      (none, some (newErrUnprocessableEntity errorBody))
  else
    (none, some (newErrUnexpectedStatusCode resp.statusCode resp.body))

/-- Method `Update`: classification of the HTTP response by
`RepositoryServiceImpl.Update`. 200 → decoded result,
404 → `ErrRepoNotFound`, 422 → `ErrUnprocessableEntity` with the body,
anything else → `ErrUnexpectedStatusCode`. -/
def Update (resp : Response RepositoryConfig) : Option RepositoryConfig × Option GoError :=
  if resp.statusCode = 200 then
    (some resp.result, none)
  else if resp.statusCode = 404 then
    (none, some ErrRepoNotFound)
  else if resp.statusCode = 422 then
    (none, some (newErrUnprocessableEntity resp.body))
  else
    (none, some (newErrUnexpectedStatusCode resp.statusCode resp.body))

/-- Outcome of the transport layer: either a transport error (`err != nil`
from the HTTP client) or a response. -/
abbrev Transport (α : Type) := Except String (Response α)

/-- Full `Get` call including the `if err != nil` transport branch. -/
def GetCall (t : Transport Repository) : Option Repository × Option GoError :=
  match t with
  | .error e => (none, some (.transport e))
  | .ok resp => Get resp

/-- Full `Add` call including the `if err != nil` transport branch. -/
def AddCall (t : Transport RepositoryConfig) : Option RepositoryConfig × Option GoError :=
  match t with
  | .error e => (none, some (.transport e))
  | .ok resp => Add resp

/-- Full `Update` call including the `if err != nil` transport branch. -/
def UpdateCall (t : Transport RepositoryConfig) : Option RepositoryConfig × Option GoError :=
  match t with
  | .error e => (none, some (.transport e))
  | .ok resp => Update resp

/-- Serialization segment for a Go `string` field tagged `omitempty`:
the key is omitted when the value is the zero string. -/
def emitStr (k : String) (v : String) : List (String × Json) :=
  if v = "" then [] else [(k, .str v)]

/-- Serialization segment for a Go `int` field tagged `omitempty`. -/
def emitInt (k : String) (v : Int) : List (String × Json) :=
  if v = 0 then [] else [(k, .num (v : Rat))]

/-- Serialization segment for a Go `bool` field tagged `omitempty`. -/
def emitBool (k : String) (v : Bool) : List (String × Json) :=
  if v = false then [] else [(k, .bool v)]

/-- Serialization segment for a Go `*bool` field tagged `omitempty`:
the key is omitted exactly when the pointer is nil. -/
def emitOptBool (k : String) : Option Bool → List (String × Json)
  | none => []
  | some b => [(k, .bool b)]

/-- Serialization segment for a Go `*float64` field tagged `omitempty`:
the key is omitted exactly when the pointer is nil. -/
def emitOptNum (k : String) : Option Rat → List (String × Json)
  | none => []
  | some q => [(k, .num q)]

/-- Go `json.Marshal` of a `Repository`, following the struct tags:
every field carries `omitempty`. -/
def Repository.marshal (r : Repository) : Json :=
  .obj (emitInt "id" r.ID ++
    emitStr "name" r.Name ++
    emitStr "service" r.Service ++
    emitOptBool "comment_on_pull_requests" r.CommentOnPullRequests ++
    emitOptBool "send_build_status" r.SendBuildStatus ++
    emitOptNum "commit_status_fail_threshold" r.CommitStatusFailThreshold ++
    emitOptNum "commit_status_fail_change_threshold" r.CommitStatusFailChangeThreshold ++
    emitBool "has_badge" r.HasBadge ++
    emitStr "token" r.Token ++
    emitStr "created_at" r.CreatedAt ++
    emitStr "updated_at" r.UpdatedAt)

/-- Go `json.Marshal` of a `RepositoryConfig`, following the struct tags:
`service` and `name` are always present (no `omitempty`); the four
optional fields carry `omitempty` on pointer types. -/
def RepositoryConfig.marshal (c : RepositoryConfig) : Json :=
  .obj ([("service", .str c.Service), ("name", .str c.Name)] ++
    emitOptBool "comment_on_pull_requests" c.CommentOnPullRequests ++
    emitOptBool "send_build_status" c.SendBuildStatus ++
    emitOptNum "commit_status_fail_threshold" c.CommitStatusFailThreshold ++
    emitOptNum "commit_status_fail_change_threshold" c.CommitStatusFailChangeThreshold)

/-- Go `json.Unmarshal` into a `string` field: missing key or `null`
leaves the zero value; a non-string value is a decode error. -/
def unmarshalStr (j : Json) (k : String) : Option String :=
  match j.getKey k with
  | none => some ""
  | some .null => some ""
  | some (.str s) => some s
  | some _ => none

/-- Go `json.Unmarshal` into an `int` field: missing key or `null`
leaves the zero value; a non-integral number or non-number is a decode
error. -/
def unmarshalInt (j : Json) (k : String) : Option Int :=
  match j.getKey k with
  | none => some 0
  | some .null => some 0
  | some (.num q) => if q.den = 1 then some q.num else none
  | some _ => none

/-- Go `json.Unmarshal` into a `bool` field: missing key or `null`
leaves the zero value; a non-boolean value is a decode error. -/
def unmarshalBool (j : Json) (k : String) : Option Bool :=
  match j.getKey k with
  | none => some false
  | some .null => some false
  | some (.bool b) => some b
  | some _ => none

/-- Go `json.Unmarshal` into a `*bool` field: missing key or `null`
leaves the nil pointer; a non-boolean value is a decode error. -/
def unmarshalOptBool (j : Json) (k : String) : Option (Option Bool) :=
  match j.getKey k with
  | none => some none
  | some .null => some none
  | some (.bool b) => some (some b)
  | some _ => none

/-- Go `json.Unmarshal` into a `*float64` field: missing key or `null`
leaves the nil pointer; a non-number value is a decode error. -/
def unmarshalOptNum (j : Json) (k : String) : Option (Option Rat) :=
  match j.getKey k with
  | none => some none
  | some .null => some none
  | some (.num q) => some (some q)
  | some _ => none

/-- Whether a JSON value is an object. -/
def Json.isObj : Json → Bool
  | .obj _ => true
  | _ => false

/-- Field-by-field decoding of a `Repository` from a JSON object. -/
def Repository.unmarshalFields (j : Json) : Option Repository :=
  (unmarshalInt j "id").bind fun i =>
  (unmarshalStr j "name").bind fun n =>
  (unmarshalStr j "service").bind fun s =>
  (unmarshalOptBool j "comment_on_pull_requests").bind fun c1 =>
  (unmarshalOptBool j "send_build_status").bind fun c2 =>
  (unmarshalOptNum j "commit_status_fail_threshold").bind fun t1 =>
  (unmarshalOptNum j "commit_status_fail_change_threshold").bind fun t2 =>
  (unmarshalBool j "has_badge").bind fun hb =>
  (unmarshalStr j "token").bind fun tok =>
  (unmarshalStr j "created_at").bind fun ca =>
  (unmarshalStr j "updated_at").bind fun ua =>
  some ⟨i, n, s, c1, c2, t1, t2, hb, tok, ca, ua⟩

/-- Go `json.Unmarshal` of a `Repository`: the body must be
a JSON object; each struct field decodes from its tag key. -/
def Repository.unmarshal (j : Json) : Option Repository :=
  if j.isObj then Repository.unmarshalFields j else none

/-- Field-by-field decoding of a `RepositoryConfig` from a JSON object. -/
def RepositoryConfig.unmarshalFields (j : Json) : Option RepositoryConfig :=
  (unmarshalStr j "service").bind fun s =>
  (unmarshalStr j "name").bind fun n =>
  (unmarshalOptBool j "comment_on_pull_requests").bind fun c1 =>
  (unmarshalOptBool j "send_build_status").bind fun c2 =>
  (unmarshalOptNum j "commit_status_fail_threshold").bind fun t1 =>
  (unmarshalOptNum j "commit_status_fail_change_threshold").bind fun t2 =>
  some ⟨s, n, c1, c2, t1, t2⟩

/-- Go `json.Unmarshal` of a `RepositoryConfig`: the body must be
a JSON object; each struct field decodes from its tag key. -/
def RepositoryConfig.unmarshal (j : Json) : Option RepositoryConfig :=
  if j.isObj then RepositoryConfig.unmarshalFields j else none

/-- The request body built by `Add`:
`body := map[string]*RepositoryConfig{"repo": data}`, marshalled by the
HTTP client to a one-key JSON object. -/
def addRequestBody (data : RepositoryConfig) : Json :=
  .obj [("repo", data.marshal)]

/-- The request body built by `Update`:
`body := map[string]*RepositoryConfig{"repo": data}`, marshalled by the
HTTP client to a one-key JSON object. -/
def updateRequestBody (data : RepositoryConfig) : Json :=
  .obj [("repo", data.marshal)]

/-- A concrete config with only `service` and `name` set, for witnesses. -/
def sampleConfig : RepositoryConfig :=
  ⟨"github", "owner/repo", none, none, none, none⟩

/-- A concrete repository record, for witnesses. -/
def sampleRepo : Repository :=
  ⟨7, "owner/repo", "github", some true, none, none, none, true, "tok", "2020-01-01", "2020-01-02"⟩

/-- Looking `c` up in a string segment with a different key finds nothing. -/
@[simp] theorem lookup_emitStr_ne (c k v : String) (h : (c == k) = false) :
    List.lookup c (emitStr k v) = none := by
  unfold emitStr
  split <;> simp [List.lookup, h]

/-- Looking `c` up in an int segment with a different key finds nothing. -/
@[simp] theorem lookup_emitInt_ne (c k : String) (v : Int) (h : (c == k) = false) :
    List.lookup c (emitInt k v) = none := by
  unfold emitInt
  split <;> simp [List.lookup, h]

/-- Looking `c` up in a bool segment with a different key finds nothing. -/
@[simp] theorem lookup_emitBool_ne (c k : String) (v : Bool) (h : (c == k) = false) :
    List.lookup c (emitBool k v) = none := by
  unfold emitBool
  split <;> simp [List.lookup, h]

/-- Looking `c` up in an optional-bool segment with a different key finds nothing. -/
@[simp] theorem lookup_emitOptBool_ne (c k : String) (o : Option Bool) (h : (c == k) = false) :
    List.lookup c (emitOptBool k o) = none := by
  cases o <;> simp [emitOptBool, List.lookup, h]

/-- Looking `c` up in an optional-number segment with a different key finds nothing. -/
@[simp] theorem lookup_emitOptNum_ne (c k : String) (o : Option Rat) (h : (c == k) = false) :
    List.lookup c (emitOptNum k o) = none := by
  cases o <;> simp [emitOptNum, List.lookup, h]

/-- Looking the key up in its own string segment. -/
@[simp] theorem lookup_emitStr_self (k v : String) :
    List.lookup k (emitStr k v) = if v = "" then none else some (.str v) := by
  unfold emitStr
  split <;> simp_all [List.lookup]

/-- Looking the key up in its own int segment. -/
@[simp] theorem lookup_emitInt_self (k : String) (v : Int) :
    List.lookup k (emitInt k v) = if v = 0 then none else some (.num (v : Rat)) := by
  unfold emitInt
  split <;> simp_all [List.lookup]

/-- Looking the key up in its own bool segment. -/
@[simp] theorem lookup_emitBool_self (k : String) (v : Bool) :
    List.lookup k (emitBool k v) = if v = false then none else some (.bool v) := by
  unfold emitBool
  split <;> simp_all [List.lookup]

/-- Looking the key up in its own optional-bool segment. -/
@[simp] theorem lookup_emitOptBool_self (k : String) (o : Option Bool) :
    List.lookup k (emitOptBool k o) = o.map Json.bool := by
  cases o <;> simp [emitOptBool, List.lookup]

/-- Looking the key up in its own optional-number segment. -/
@[simp] theorem lookup_emitOptNum_self (k : String) (o : Option Rat) :
    List.lookup k (emitOptNum k o) = o.map Json.num := by
  cases o <;> simp [emitOptNum, List.lookup]

/-- Decoding the `id` key of a marshalled `Repository` recovers the field. -/
theorem Repository.decode_id (r : Repository) :
    unmarshalInt r.marshal "id" = some r.ID := by
  by_cases h : r.ID = 0 <;>
    simp [unmarshalInt, Json.getKey, Repository.marshal, List.lookup_append, h]

/-- Decoding the `name` key of a marshalled `Repository` recovers the field. -/
theorem Repository.decode_name (r : Repository) :
    unmarshalStr r.marshal "name" = some r.Name := by
  by_cases h : r.Name = "" <;>
    simp [unmarshalStr, Json.getKey, Repository.marshal, List.lookup_append, h]

/-- Decoding the `service` key of a marshalled `Repository` recovers the field. -/
theorem Repository.decode_service (r : Repository) :
    unmarshalStr r.marshal "service" = some r.Service := by
  by_cases h : r.Service = "" <;>
    simp [unmarshalStr, Json.getKey, Repository.marshal, List.lookup_append, h]

/-- Decoding the `comment_on_pull_requests` key of a marshalled `Repository`. -/
theorem Repository.decode_copr (r : Repository) :
    unmarshalOptBool r.marshal "comment_on_pull_requests" = some r.CommentOnPullRequests := by
  cases h : r.CommentOnPullRequests <;>
    simp [unmarshalOptBool, Json.getKey, Repository.marshal, List.lookup_append, h]

/-- Decoding the `send_build_status` key of a marshalled `Repository`. -/
theorem Repository.decode_sbs (r : Repository) :
    unmarshalOptBool r.marshal "send_build_status" = some r.SendBuildStatus := by
  cases h : r.SendBuildStatus <;>
    simp [unmarshalOptBool, Json.getKey, Repository.marshal, List.lookup_append, h]

/-- Decoding the `commit_status_fail_threshold` key of a marshalled `Repository`. -/
theorem Repository.decode_csft (r : Repository) :
    unmarshalOptNum r.marshal "commit_status_fail_threshold" = some r.CommitStatusFailThreshold := by
  cases h : r.CommitStatusFailThreshold <;>
    simp [unmarshalOptNum, Json.getKey, Repository.marshal, List.lookup_append, h]

/-- Decoding the `commit_status_fail_change_threshold` key of a marshalled `Repository`. -/
theorem Repository.decode_csfct (r : Repository) :
    unmarshalOptNum r.marshal "commit_status_fail_change_threshold" =
      some r.CommitStatusFailChangeThreshold := by
  cases h : r.CommitStatusFailChangeThreshold <;>
    simp [unmarshalOptNum, Json.getKey, Repository.marshal, List.lookup_append, h]

/-- Decoding the `has_badge` key of a marshalled `Repository` recovers the field. -/
theorem Repository.decode_has_badge (r : Repository) :
    unmarshalBool r.marshal "has_badge" = some r.HasBadge := by
  by_cases h : r.HasBadge = false <;>
    simp [unmarshalBool, Json.getKey, Repository.marshal, List.lookup_append, h]

/-- Decoding the `token` key of a marshalled `Repository` recovers the field. -/
theorem Repository.decode_token (r : Repository) :
    unmarshalStr r.marshal "token" = some r.Token := by
  by_cases h : r.Token = "" <;>
    simp [unmarshalStr, Json.getKey, Repository.marshal, List.lookup_append, h]

/-- Decoding the `created_at` key of a marshalled `Repository` recovers the field. -/
theorem Repository.decode_created_at (r : Repository) :
    unmarshalStr r.marshal "created_at" = some r.CreatedAt := by
  by_cases h : r.CreatedAt = "" <;>
    simp [unmarshalStr, Json.getKey, Repository.marshal, List.lookup_append, h]

/-- Decoding the `updated_at` key of a marshalled `Repository` recovers the field. -/
theorem Repository.decode_updated_at (r : Repository) :
    unmarshalStr r.marshal "updated_at" = some r.UpdatedAt := by
  by_cases h : r.UpdatedAt = "" <;>
    simp [unmarshalStr, Json.getKey, Repository.marshal, List.lookup_append, h]

/-- A marshalled `Repository` is a JSON object. -/
theorem Repository.isObj_marshal (r : Repository) : r.marshal.isObj = true := rfl

/-- Decode-after-encode identity for `Repository`. -/
theorem Repository.unmarshal_marshal (r : Repository) :
    Repository.unmarshal r.marshal = some r := by
  simp [Repository.unmarshal, Repository.isObj_marshal, Repository.unmarshalFields,
    Repository.decode_id, Repository.decode_name, Repository.decode_service,
    Repository.decode_copr, Repository.decode_sbs, Repository.decode_csft,
    Repository.decode_csfct, Repository.decode_has_badge, Repository.decode_token,
    Repository.decode_created_at, Repository.decode_updated_at]

/-- Decoding the `service` key of a marshalled `RepositoryConfig`. -/
theorem RepositoryConfig.cfg_decode_service (c : RepositoryConfig) :
    unmarshalStr c.marshal "service" = some c.Service := by
  simp [unmarshalStr, Json.getKey, RepositoryConfig.marshal, List.lookup_append, List.lookup]

/-- Decoding the `name` key of a marshalled `RepositoryConfig`. -/
theorem RepositoryConfig.cfg_decode_name (c : RepositoryConfig) :
    unmarshalStr c.marshal "name" = some c.Name := by
  simp [unmarshalStr, Json.getKey, RepositoryConfig.marshal, List.lookup_append, List.lookup]

/-- Decoding the `comment_on_pull_requests` key of a marshalled `RepositoryConfig`. -/
theorem RepositoryConfig.cfg_decode_copr (c : RepositoryConfig) :
    unmarshalOptBool c.marshal "comment_on_pull_requests" = some c.CommentOnPullRequests := by
  cases h : c.CommentOnPullRequests <;>
    simp [unmarshalOptBool, Json.getKey, RepositoryConfig.marshal, List.lookup_append,
      List.lookup, h]

/-- Decoding the `send_build_status` key of a marshalled `RepositoryConfig`. -/
theorem RepositoryConfig.cfg_decode_sbs (c : RepositoryConfig) :
    unmarshalOptBool c.marshal "send_build_status" = some c.SendBuildStatus := by
  cases h : c.SendBuildStatus <;>
    simp [unmarshalOptBool, Json.getKey, RepositoryConfig.marshal, List.lookup_append,
      List.lookup, h]

/-- Decoding the `commit_status_fail_threshold` key of a marshalled `RepositoryConfig`. -/
theorem RepositoryConfig.cfg_decode_csft (c : RepositoryConfig) :
    unmarshalOptNum c.marshal "commit_status_fail_threshold" =
      some c.CommitStatusFailThreshold := by
  cases h : c.CommitStatusFailThreshold <;>
    simp [unmarshalOptNum, Json.getKey, RepositoryConfig.marshal, List.lookup_append,
      List.lookup, h]

/-- Decoding the `commit_status_fail_change_threshold` key of a marshalled
`RepositoryConfig`. -/
theorem RepositoryConfig.cfg_decode_csfct (c : RepositoryConfig) :
    unmarshalOptNum c.marshal "commit_status_fail_change_threshold" =
      some c.CommitStatusFailChangeThreshold := by
  cases h : c.CommitStatusFailChangeThreshold <;>
    simp [unmarshalOptNum, Json.getKey, RepositoryConfig.marshal, List.lookup_append,
      List.lookup, h]

/-- A marshalled `RepositoryConfig` is a JSON object. -/
theorem RepositoryConfig.cfg_isObj_marshal (c : RepositoryConfig) : c.marshal.isObj = true := rfl

/-- Decode-after-encode identity for `RepositoryConfig`. -/
theorem RepositoryConfig.cfg_unmarshal_marshal (c : RepositoryConfig) :
    RepositoryConfig.unmarshal c.marshal = some c := by
  simp [RepositoryConfig.unmarshal, RepositoryConfig.cfg_isObj_marshal,
    RepositoryConfig.unmarshalFields, RepositoryConfig.cfg_decode_service,
    RepositoryConfig.cfg_decode_name, RepositoryConfig.cfg_decode_copr, RepositoryConfig.cfg_decode_sbs,
    RepositoryConfig.cfg_decode_csft, RepositoryConfig.cfg_decode_csfct]

/-- Exactly one side of the Go pair `(result, err)` is set. -/
def exclusiveOutcome {α : Type} (p : Option α × Option GoError) : Prop :=
  (p.1.isSome = true ∧ p.2 = none) ∨ (p.1 = none ∧ p.2.isSome = true)

/-- C1: a call to `Add` whose response has status 422 and whose body
contains the name-already-taken marker fails with `ErrNameIsTaken` and
returns no result value. -/
theorem add_status422_taken_marker (resp : Response RepositoryConfig)
    (h1 : resp.statusCode = 422)
    (h2 : stringsContains resp.body "has already been taken" = true) :
    Add resp = (none, some ErrNameIsTaken) := by
  simp [Add, h1, h2]

/-- Witness for C1 at status 422 with body "Name has already been taken". -/
theorem add_status422_taken_marker_witness :
    stringsContains "Name has already been taken" "has already been taken" = true ∧
    Add ⟨422, "Name has already been taken", sampleConfig⟩ = (none, some ErrNameIsTaken) :=
  ⟨by decide,
   add_status422_taken_marker ⟨422, "Name has already been taken", sampleConfig⟩ rfl (by decide)⟩

/-- C2: a call to `Add` whose response has status 422 and whose body does
not contain the name-already-taken marker fails with
`ErrUnprocessableEntity` carrying exactly the full raw body, and not with
`ErrNameIsTaken`. -/
theorem add_status422_other_body (resp : Response RepositoryConfig)
    (h1 : resp.statusCode = 422)
    (h2 : stringsContains resp.body "has already been taken" = false) :
    Add resp = (none, some (newErrUnprocessableEntity resp.body)) ∧
    Add resp ≠ (none, some ErrNameIsTaken) := by
  constructor
  · simp [Add, h1, h2]
  · simp [Add, h1, h2, newErrUnprocessableEntity, ErrNameIsTaken]

/-- Witness for C2 at status 422 with body "Service is invalid". -/
theorem add_status422_other_body_witness :
    stringsContains "Service is invalid" "has already been taken" = false ∧
    (Add ⟨422, "Service is invalid", sampleConfig⟩ =
        (none, some (newErrUnprocessableEntity "Service is invalid")) ∧
      Add ⟨422, "Service is invalid", sampleConfig⟩ ≠ (none, some ErrNameIsTaken)) :=
  ⟨by decide,
   add_status422_other_body ⟨422, "Service is invalid", sampleConfig⟩ rfl (by decide)⟩

/-- C3: a call to `Update` whose response has status 404 fails with
`ErrRepoNotFound` and returns no result value. -/
theorem update_status404_not_found (resp : Response RepositoryConfig)
    (h : resp.statusCode = 404) :
    Update resp = (none, some ErrRepoNotFound) := by
  simp [Update, h]

/-- Witness for C3 at a concrete 404 response. -/
theorem update_status404_not_found_witness :
    Update ⟨404, "not found", sampleConfig⟩ = (none, some ErrRepoNotFound) :=
  update_status404_not_found ⟨404, "not found", sampleConfig⟩ rfl

/-- C4: a call to `Get` whose response status is neither 200 nor 404
fails with `ErrUnexpectedStatusCode` carrying that status and the raw
body. -/
theorem get_unexpected_status (resp : Response Repository)
    (h1 : resp.statusCode ≠ 200) (h2 : resp.statusCode ≠ 404) :
    Get resp = (none, some (newErrUnexpectedStatusCode resp.statusCode resp.body)) := by
  simp [Get, h1, h2]

/-- Witness for C4 at status 500 with body "server error". -/
theorem get_unexpected_status_witness :
    Get ⟨500, "server error", sampleRepo⟩ =
      (none, some (newErrUnexpectedStatusCode 500 "server error")) :=
  get_unexpected_status ⟨500, "server error", sampleRepo⟩ (by decide) (by decide)

/-- C5: a call to `Update` whose response has status 422 fails with
`ErrUnprocessableEntity` carrying the raw body, never with
`ErrNameIsTaken`, regardless of the body contents. -/
theorem update_status422_unprocessable (resp : Response RepositoryConfig)
    (h : resp.statusCode = 422) :
    Update resp = (none, some (newErrUnprocessableEntity resp.body)) ∧
    (Update resp).2 ≠ some ErrNameIsTaken := by
  constructor
  · simp [Update, h]
  · simp [Update, h, newErrUnprocessableEntity, ErrNameIsTaken]

/-- Witness for C5 at status 422 with a body that does contain the
name-already-taken marker: `Update` still ignores the marker. -/
theorem update_status422_unprocessable_witness :
    Update ⟨422, "Name has already been taken", sampleConfig⟩ =
        (none, some (newErrUnprocessableEntity "Name has already been taken")) ∧
      (Update ⟨422, "Name has already been taken", sampleConfig⟩).2 ≠ some ErrNameIsTaken :=
  update_status422_unprocessable ⟨422, "Name has already been taken", sampleConfig⟩ rfl

/-- C6: every unset optional field of a `RepositoryConfig` produces no
key at all in the serialized body; a config with only `service` and
`name` set serializes to exactly those two keys. -/
theorem config_marshal_omits_unset (c : RepositoryConfig) :
    (c.CommentOnPullRequests = none →
      c.marshal.hasKey "comment_on_pull_requests" = false) ∧
    (c.SendBuildStatus = none → c.marshal.hasKey "send_build_status" = false) ∧
    (c.CommitStatusFailThreshold = none →
      c.marshal.hasKey "commit_status_fail_threshold" = false) ∧
    (c.CommitStatusFailChangeThreshold = none →
      c.marshal.hasKey "commit_status_fail_change_threshold" = false) ∧
    (c.CommentOnPullRequests = none → c.SendBuildStatus = none →
      c.CommitStatusFailThreshold = none → c.CommitStatusFailChangeThreshold = none →
      c.marshal.keys = ["service", "name"]) := by
  refine ⟨?_, ?_, ?_, ?_, ?_⟩
  · intro h
    simp [RepositoryConfig.marshal, Json.hasKey, Json.getKey, List.lookup_append,
      List.lookup, h]
  · intro h
    simp [RepositoryConfig.marshal, Json.hasKey, Json.getKey, List.lookup_append,
      List.lookup, h]
  · intro h
    simp [RepositoryConfig.marshal, Json.hasKey, Json.getKey, List.lookup_append,
      List.lookup, h]
  · intro h
    simp [RepositoryConfig.marshal, Json.hasKey, Json.getKey, List.lookup_append,
      List.lookup, h]
  · intro h1 h2 h3 h4
    simp [RepositoryConfig.marshal, Json.keys, h1, h2, h3, h4, emitOptBool, emitOptNum]

/-- Witness for C6 at the config with only `service` and `name` set. -/
theorem config_marshal_omits_unset_witness :
    (sampleConfig.marshal).hasKey "comment_on_pull_requests" = false ∧
    (sampleConfig.marshal).keys = ["service", "name"] :=
  ⟨(config_marshal_omits_unset sampleConfig).1 rfl,
   (config_marshal_omits_unset sampleConfig).2.2.2.2 rfl rfl rfl rfl⟩

/-- C7: on the success status each operation returns exactly the decoded
record, and decoding is faithful: a record decoded from its own
serialization matches field for field, with omitted optional fields
decoding to the absent state. -/
theorem decode_fidelity_success :
    (∀ r : Repository, Repository.unmarshal r.marshal = some r) ∧
    (∀ c : RepositoryConfig, RepositoryConfig.unmarshal c.marshal = some c) ∧
    (∀ resp : Response Repository, resp.statusCode = 200 →
      Get resp = (some resp.result, none)) ∧
    (∀ resp : Response RepositoryConfig, resp.statusCode = 201 →
      Add resp = (some resp.result, none)) ∧
    (∀ resp : Response RepositoryConfig, resp.statusCode = 200 →
      Update resp = (some resp.result, none)) := by
  refine ⟨Repository.unmarshal_marshal, RepositoryConfig.cfg_unmarshal_marshal, ?_, ?_, ?_⟩ <;>
    intro resp h <;> simp [Get, Add, Update, h]

/-- Witness for C7 at a concrete 200 response and a concrete config. -/
theorem decode_fidelity_success_witness :
    Get ⟨200, "", sampleRepo⟩ = (some sampleRepo, none) ∧
    RepositoryConfig.unmarshal sampleConfig.marshal = some sampleConfig :=
  ⟨decode_fidelity_success.2.2.1 ⟨200, "", sampleRepo⟩ rfl,
   decode_fidelity_success.2.1 sampleConfig⟩

/-- C8: the request body sent by `Add` and by `Update` is the config
wrapped in an envelope object under the single key `repo`. -/
theorem request_body_envelope (data : RepositoryConfig) :
    addRequestBody data = Json.obj [("repo", data.marshal)] ∧
    updateRequestBody data = Json.obj [("repo", data.marshal)] ∧
    (addRequestBody data).keys = ["repo"] ∧
    (updateRequestBody data).keys = ["repo"] ∧
    (addRequestBody data).getKey "repo" = some data.marshal ∧
    (updateRequestBody data).getKey "repo" = some data.marshal := by
  refine ⟨rfl, rfl, rfl, rfl, ?_, ?_⟩ <;>
    simp [addRequestBody, updateRequestBody, Json.getKey, List.lookup]

/-- The `Get` classification sets exactly one side of the pair. -/
theorem get_exclusive (resp : Response Repository) : exclusiveOutcome (Get resp) := by
  unfold Get
  split_ifs <;> simp [exclusiveOutcome]

/-- The `Add` classification sets exactly one side of the pair. -/
theorem add_exclusive (resp : Response RepositoryConfig) : exclusiveOutcome (Add resp) := by
  unfold Add
  by_cases hb : stringsContains resp.body "has already been taken" = true <;>
    split_ifs <;> simp [exclusiveOutcome, hb]

/-- The `Update` classification sets exactly one side of the pair. -/
theorem update_exclusive (resp : Response RepositoryConfig) :
    exclusiveOutcome (Update resp) := by
  unfold Update
  split_ifs <;> simp [exclusiveOutcome]

/-- C9: every call returns exactly one of a result or an error: a set
result with no error, or no result with exactly one error value. -/
theorem call_exactly_one_outcome :
    (∀ t : Transport Repository, exclusiveOutcome (GetCall t)) ∧
    (∀ t : Transport RepositoryConfig, exclusiveOutcome (AddCall t)) ∧
    (∀ t : Transport RepositoryConfig, exclusiveOutcome (UpdateCall t)) := by
  refine ⟨fun t => ?_, fun t => ?_, fun t => ?_⟩
  · cases t with
    | error e => exact Or.inr ⟨rfl, rfl⟩
    | ok resp => exact get_exclusive resp
  · cases t with
    | error e => exact Or.inr ⟨rfl, rfl⟩
    | ok resp => exact add_exclusive resp
  · cases t with
    | error e => exact Or.inr ⟨rfl, rfl⟩
    | ok resp => exact update_exclusive resp

/-- C10: the marker check in `Add` looks only for the substring
"has already been taken" anywhere in the 422 body, so a body reporting
any attribute as taken — for example "Email has already been taken" —
also produces `ErrNameIsTaken`. -/
theorem add_marker_any_attribute :
    Add ⟨422, "Email has already been taken", sampleConfig⟩ = (none, some ErrNameIsTaken) ∧
    (∀ resp : Response RepositoryConfig, resp.statusCode = 422 →
      stringsContains resp.body "has already been taken" = true →
      Add resp = (none, some ErrNameIsTaken)) := by
  constructor
  · decide
  · intro resp h1 h2
    simp [Add, h1, h2]

/-- Witness for C10 at a 422 body reporting a different attribute taken. -/
theorem add_marker_any_attribute_witness :
    Add ⟨422, "Token has already been taken", sampleConfig⟩ = (none, some ErrNameIsTaken) :=
  add_marker_any_attribute.2 ⟨422, "Token has already been taken", sampleConfig⟩ rfl (by decide)

end Coveralls
